import Mathlib

/-!
# EduFeedbackHub — verification of the comment/rating aggregation core

Shallow embedding of the EduFeedbackHub backend (Django, Python) in Lean 4.
The definitions below are translated from
`backend/edufeedbackhub/views/views_modify.py`,
`backend/edufeedbackhub/views/views_query.py` and
`backend/edufeedbackhub/models.py`.  The relational store is modelled as
explicit lists of rows; request handlers become pure functions from the
store and a parsed request to an outcome and the updated store.
-/

namespace EduFeedbackHub

/-- The six entity types a comment or rating can be attached to
(`field_model_map` in `add_comment_api`, `model_map` in `rate_api`). -/
inductive TargetType where
  | university
  | college
  | school
  | module
  | lecturer
  | teaching
deriving DecidableEq, Repr

/-! ## Polymorphic target resolver and `add_comment_api`
(`views/views_modify.py`, lines 21–104) -/

/-- Parsed JSON body of a `POST /api/comment/add/` request.  Each `*_id`
field is `none` when absent from the JSON; `some 0` models an explicit
falsy id (Python `if val:` treats `0` like a missing field). -/
structure AddCommentData where
  content : String
  parent_id : Option Nat
  is_anonymous : Bool
  university_id : Option Nat
  college_id : Option Nat
  school_id : Option Nat
  module_id : Option Nat
  lecturer_id : Option Nat
  teaching_id : Option Nat
deriving DecidableEq, Repr

/-- The candidate target fields in the iteration order of
`field_model_map` (Python dicts preserve insertion order). -/
def targetFields (d : AddCommentData) : List (TargetType × Option Nat) :=
  [(.university, d.university_id), (.college, d.college_id),
   (.school, d.school_id), (.module, d.module_id),
   (.lecturer, d.lecturer_id), (.teaching, d.teaching_id)]

/-- Number of target-id fields that are set (truthy) in the request. -/
def countSetTargets (d : AddCommentData) : Nat :=
  ((targetFields d).filter (fun p => p.2.getD 0 ≠ 0)).length

/-- Outcome of scanning the candidate target fields. -/
inductive ResolveOutcome where
  | noTarget              -- no field was truthy: 400 "No valid target object specified"
  | http404               -- a field was set but `get_object_or_404` failed
  | found (tt : TargetType) (id : Nat)
deriving DecidableEq, Repr

/-- The `for field, model_name in field_model_map.items()` loop of
`add_comment_api`: take the FIRST truthy field, look the id up
(`get_object_or_404`), and `break`.  `db tt n` tells whether entity `n`
of type `tt` exists in the store. -/
def resolve_loop (db : TargetType → Nat → Bool) :
    List (TargetType × Option Nat) → ResolveOutcome
  | [] => .noTarget
  | (tt, v) :: rest =>
    match v with
    | some n =>
      if n ≠ 0 then
        if db tt n then .found tt n else .http404
      else resolve_loop db rest
    | none => resolve_loop db rest

/-- Outcome of `add_comment_api`. `created` records the row written by
`Comment.objects.create(...)`. -/
inductive AddCommentOutcome where
  | badRequest (msg : String)                    -- HTTP 400
  | http404                                      -- get_object_or_404 failure
  | created (target : TargetType) (target_id : Nat) (content : String)
      (user : Option Nat) (is_anonymous : Bool) (parent : Option Nat)
deriving DecidableEq, Repr

/-- Python's `str.strip()`: drop whitespace from both ends.  Defined
over the character list so that it reduces in the kernel
(`String.trim` is defined by well-founded recursion and does not). -/
def strip (s : String) : String :=
  ⟨((s.data.dropWhile Char.isWhitespace).reverse.dropWhile Char.isWhitespace).reverse⟩

/-- `add_comment_api` (`views/views_modify.py`, lines 21–104).
`comment_exists` is the `Comment` table keyed by id (for the
`parent_id` lookup); `user` is the identity resolved from the
`Authorization` token (`none` when no valid token was sent). -/
def add_comment_api (db : TargetType → Nat → Bool) (comment_exists : Nat → Bool)
    (user : Option Nat) (d : AddCommentData) : AddCommentOutcome :=
  let content := strip d.content
  if content = "" then .badRequest "Content is required"
  else
    let parentRes : Except Unit (Option Nat) :=
      match d.parent_id with
      | some p =>
        if p ≠ 0 then
          if comment_exists p then .ok (some p) else .error ()
        else .ok none
      | none => .ok none
    match parentRes with
    | .error _ => .http404
    | .ok parent =>
      match resolve_loop db (targetFields d) with
      | .noTarget => .badRequest "No valid target object specified"
      | .http404 => .http404
      | .found tt n => .created tt n content user d.is_anonymous parent

/-! ## Quartile computation (`views/views_query.py`, lines 774–802) -/

/-- `median(a)` as defined inside `compute_quartiles`: `None` on the
empty list, the middle element for odd length, the mean of the two
middle elements for even length.  Indexing with `getD` is total; every
index used is in range. -/
def median (a : List ℚ) : Option ℚ :=
  let m := a.length
  let mid := m / 2
  if m = 0 then none
  else if m % 2 = 1 then some (a.getD mid 0)
  else some ((a.getD (mid - 1) 0 + a.getD mid 0) / 2)

/-- The five-number summary returned by `compute_quartiles`. -/
structure Quartiles where
  vmin : Option ℚ
  q1 : Option ℚ
  q2 : Option ℚ
  q3 : Option ℚ
  vmax : Option ℚ
deriving DecidableEq, Repr

/-- `compute_quartiles(values)` from `lecturer_rating_trend_api`:
sort, take `min`/`max` at the ends, `q2 = median(arr)`, split into
`lower = arr[:n//2]` and `upper = arr[n//2:]` (even `n`) or
`arr[n//2+1:]` (odd `n`), and return the medians of the halves.
Python's `sorted` is modelled by `List.insertionSort (· ≤ ·)`. -/
def compute_quartiles (values : List ℚ) : Quartiles :=
  if values = [] then ⟨none, none, none, none, none⟩
  else
    let arr := values.insertionSort (· ≤ ·)
    let n := arr.length
    let q2 := median arr
    let lower := arr.take (n / 2)
    let upper := if n % 2 = 0 then arr.drop (n / 2) else arr.drop (n / 2 + 1)
    ⟨some (arr.getD 0 0), median lower, q2, median upper,
      some (arr.getD (n - 1) 0)⟩

/-- The quartile rule as the spec words it: lower half = first ⌊n/2⌋
elements of the sorted sample, upper half = LAST ⌊n/2⌋ elements (for odd
`n` this excludes the exact median element from both halves); `Q1`/`Q3`
are the medians of the halves, `min`/`max` the first and last elements,
and the median is the middle element (odd `n`) or the mean of the two
middle elements (even `n`). -/
def compute_quartiles_spec (values : List ℚ) : Quartiles :=
  if values = [] then ⟨none, none, none, none, none⟩
  else
    let arr := values.insertionSort (· ≤ ·)
    let n := arr.length
    let lower := arr.take (n / 2)
    let upper := arr.drop (n - n / 2)
    ⟨some (arr.getD 0 0), median lower, median arr, median upper,
      some (arr.getD (n - 1) 0)⟩

/-! ## Comment threads and serialization
(`models.py` `Comment`, `views/views_query.py` `serialize_comment`,
lines 95–109, identical in every detail endpoint) -/

/-- A Django `User` together with the data `serialize_comment` reads
from it: `user.id`, `user.username`, and the role of its `Profile` row
when one exists (`hasattr(user, 'profile')`). -/
structure UserRec where
  id : Nat
  username : String
  profile : Option String
deriving DecidableEq, Repr

/-- A `Comment` row viewed through the ORM object graph: `replies` is
the reverse accessor `comment.replies.all()` (the child rows), in
unspecified stored order. -/
inductive Comment where
  | mk (id : Nat) (content : String) (created_at : Nat) (is_anonymous : Bool)
      (user : Option UserRec) (replies : List Comment)

def Comment.id : Comment → Nat
  | .mk i _ _ _ _ _ => i

def Comment.content : Comment → String
  | .mk _ c _ _ _ _ => c

def Comment.created_at : Comment → Nat
  | .mk _ _ t _ _ _ => t

def Comment.is_anonymous : Comment → Bool
  | .mk _ _ _ a _ _ => a

def Comment.user : Comment → Option UserRec
  | .mk _ _ _ _ u _ => u

def Comment.replies : Comment → List Comment
  | .mk _ _ _ _ _ rs => rs

/-- The JSON object built by `serialize_comment` for one comment. -/
inductive SerializedComment where
  | mk (id : Nat) (content : String) (created_at : Nat) (is_anonymous : Bool)
      (user : Option Nat) (username : Option String) (role : Option String)
      (replies : List SerializedComment)

def SerializedComment.id : SerializedComment → Nat
  | .mk i _ _ _ _ _ _ _ => i

def SerializedComment.created_at : SerializedComment → Nat
  | .mk _ _ t _ _ _ _ _ => t

def SerializedComment.user : SerializedComment → Option Nat
  | .mk _ _ _ _ u _ _ _ => u

def SerializedComment.username : SerializedComment → Option String
  | .mk _ _ _ _ _ un _ _ => un

def SerializedComment.role : SerializedComment → Option String
  | .mk _ _ _ _ _ _ r _ => r

def SerializedComment.replies : SerializedComment → List SerializedComment
  | .mk _ _ _ _ _ _ _ rs => rs

/-- Ordering of serialized comments by `created_at` ascending, the key
of `order_by('created_at')`. -/
def serLE (a b : SerializedComment) : Prop := a.created_at ≤ b.created_at

instance : DecidableRel serLE := fun a b => Nat.decLe a.created_at b.created_at

instance : IsTotal SerializedComment serLE :=
  ⟨fun a b => Nat.le_total a.created_at b.created_at⟩

instance : IsTrans SerializedComment serLE := ⟨fun _ _ _ => Nat.le_trans⟩

mutual
/-- `serialize_comment(comment)` (`views/views_query.py` 95–109):
`user` is `comment.user.id if comment.user else None`; `username` and
`role` are included only when an author exists and `is_anonymous` is
false; `replies` serializes the children ordered by `created_at`
ascending.  Serialization preserves `created_at`, and the tie order of
`order_by('created_at')` is unspecified (database-dependent), so
key-sorting the serialized children models
`[serialize_comment(r) for r in comment.replies.all().order_by('created_at')]`. -/
def serialize_comment : Comment → SerializedComment
  | .mk i c t anon user rs =>
    .mk i c t anon
      (user.map (·.id))
      (match user with
        | some u => if !anon then some u.username else none
        | none => none)
      (match user with
        | some u => if u.profile.isSome && !anon then u.profile else none
        | none => none)
      (List.insertionSort serLE (serialize_list rs))

/-- Elementwise serialization of a list of comments. -/
def serialize_list : List Comment → List SerializedComment
  | [] => []
  | c :: cs => serialize_comment c :: serialize_list cs
end

/-! ## Flat comment rows: top-level listing and deletion -/

/-- A `Comment` row of one target's comment set
(`university.comments` etc.), projected to the fields the top-level
query and `delete_comment_api` read.  `user` is the stored author id
(nullable: `SET_NULL`), `parent` the parent comment id. -/
structure CommentRow where
  id : Nat
  user : Option Nat
  parent : Option Nat
  created_at : Nat
  is_anonymous : Bool
deriving DecidableEq, Repr

/-- Ordering of comment rows by `created_at` descending, the key of
`order_by('-created_at')`. -/
def rowGE (a b : CommentRow) : Prop := b.created_at ≤ a.created_at

instance : DecidableRel rowGE := fun a b => Nat.decLe b.created_at a.created_at

instance : IsTotal CommentRow rowGE :=
  ⟨fun a b => (Nat.le_total b.created_at a.created_at).imp id id⟩

instance : IsTrans CommentRow rowGE := ⟨fun _ _ _ h h' => Nat.le_trans h' h⟩

/-- `comments_qs = target.comments.filter(parent=None).order_by('-created_at')`
(`views/views_query.py`, line 86): the root comments of a target,
newest first. -/
def listTopLevel (rows : List CommentRow) : List CommentRow :=
  List.insertionSort rowGE (rows.filter (fun r => r.parent = none))

/-- Outcome of `delete_comment_api`. -/
inductive DeleteOutcome where
  | http404                -- get_object_or_404: no such comment
  | forbidden (msg : String)
  | deleted (msg : String)
deriving DecidableEq, Repr

/-- `delete_comment_api(request, comment_id)`
(`views/views_modify.py`, lines 107–129): 404 when the comment does not
exist, 403 unless a user was authenticated and equals the comment's
stored author (`if not user or comment.user != user`), otherwise the
row is deleted.  The cascade to reply rows happens at the storage
layer and is outside this projection. -/
def delete_comment_api (store : List CommentRow) (comment_id : Nat)
    (user : Option Nat) : DeleteOutcome × List CommentRow :=
  match store.find? (fun c => c.id = comment_id) with
  | none => (.http404, store)
  | some c =>
    match user with
    | none => (.forbidden "You do not have permission to delete this comment.", store)
    | some u =>
      if c.user = some u then
        (.deleted "Comment deleted successfully",
          store.eraseP (fun c => c.id = comment_id))
      else (.forbidden "You do not have permission to delete this comment.", store)

/-! ## Rating engine (`models.py` `Rating`, `views/views_modify.py`
`rate_api` lines 456–540, detail-endpoint aggregation
`views/views_query.py` lines 88–92 and 122–129) -/

/-- A `Rating` row: generic foreign key `(content_type, object_id)`
plus the rater and the score.  `Meta.unique_together =
('user', 'content_type', 'object_id')`: the store holds at most one row
per key (stated as a hypothesis where relevant).  The score column is
`IntegerField`; values written by `rate_api` are validated integral
Decimals, modelled as `ℚ`. -/
structure RatingRow where
  user : Nat
  content_type : TargetType
  object_id : Nat
  score : ℚ
deriving DecidableEq, Repr

/-- Does a rating row match the `(user, content_type, object_id)` key? -/
def ratingKey (u : Nat) (tt : TargetType) (oid : Nat) (r : RatingRow) : Bool :=
  r.user = u && r.content_type = tt && r.object_id = oid

/-- `Rating.objects.get_or_create(user=, content_type=, object_id=,
defaults={'score': score})` followed by `rating.score = score;
rating.save()` when the row already existed: update the (unique)
matching row in place, or append a fresh row. -/
def upsertRating (u : Nat) (tt : TargetType) (oid : Nat) (score : ℚ) :
    List RatingRow → List RatingRow
  | [] => [⟨u, tt, oid, score⟩]
  | r :: rs =>
    if ratingKey u tt oid r then { r with score := score } :: rs
    else r :: upsertRating u tt oid score rs

/-- The scores of all ratings stored for one exact target:
`Rating.objects.filter(content_type=ct, object_id=target_id)`. -/
def ratingsFor (store : List RatingRow) (tt : TargetType) (oid : Nat) : List ℚ :=
  (store.filter (fun r => r.content_type = tt && r.object_id = oid)).map (·.score)

/-- `round(x, 1)` on the average: round to one decimal place.
Python rounds floats with banker's tie-breaking subject to binary
representation; ties are abstracted here as round-half-up on `ℚ`. -/
def round1 (q : ℚ) : ℚ := (round (10 * q) : ℤ) / 10

/-- The `{'average': ..., 'count': ...}` block of every detail endpoint
(`views/views_query.py`, lines 88–92 and 122–129):
`avg = ratings.aggregate(Avg('score'))['score__avg'] or 0` (the
aggregate is `None`, hence `0`, when no row matches), served as
`round(float(avg), 1)` together with `ratings.count()`. -/
def getAggregate (store : List RatingRow) (tt : TargetType) (oid : Nat) : ℚ × Nat :=
  let scores := ratingsFor store tt oid
  let avg : ℚ := if scores = [] then 0 else scores.sum / scores.length
  (round1 avg, scores.length)

/-- The JSON `score` field of a rating request: absent
(`data.get('score')` is `None`), present but not parseable by
`Decimal(str(score))`, or a parsed number. -/
inductive ScoreField where
  | missing
  | notNumber
  | num (q : ℚ)
deriving DecidableEq, Repr

/-- Parsed body and resolved identity of a `POST /api/rate/` request.
`auth_user` is the user id the `Authorization` token resolves to
(`none`: missing or invalid token). -/
structure RateRequest where
  target_type : Option String
  target_id : Option Nat
  score : ScoreField
  auth_user : Option Nat
deriving DecidableEq, Repr

/-- Outcome of `rate_api`. -/
inductive RateOutcome where
  | badRequest (msg : String)       -- HTTP 400
  | unauthorized (msg : String)     -- HTTP 401
  | forbidden (msg : String)        -- HTTP 403
  | notFound (msg : String)         -- HTTP 404
  | ok (average : ℚ) (count : Nat) (score : ℚ)
deriving DecidableEq, Repr

def RateOutcome.isBadRequest : RateOutcome → Bool
  | .badRequest _ => true
  | _ => false

/-- `model_map` of `rate_api`: the valid `target_type` strings. -/
def parseTargetType (s : String) : Option TargetType :=
  if s = "university" then some .university
  else if s = "college" then some .college
  else if s = "school" then some .school
  else if s = "module" then some .module
  else if s = "lecturer" then some .lecturer
  else if s = "teaching" then some .teaching
  else none

/-- `rate_api` (`views/views_modify.py`, lines 456–540).  `profiles`
maps a user id to its `Profile.role` when a profile row exists; `db`
tells whether a target entity exists.  Returns the response and the
rating store, which is written only on the success path
(`get_or_create` + `save`). -/
def rate_api (profiles : Nat → Option String) (db : TargetType → Nat → Bool)
    (store : List RatingRow) (req : RateRequest) : RateOutcome × List RatingRow :=
  -- `if not target_type or not target_id or score is None`
  if req.target_type.getD "" = "" || req.target_id.getD 0 = 0 ||
      req.score = ScoreField.missing then
    (.badRequest "target_type, target_id, and score are required", store)
  else
    match req.score with
    | .missing => (.badRequest "target_type, target_id, and score are required", store)
    | .notNumber => (.badRequest "Invalid score", store)
    | .num q =>
      -- `if score not in [1, 2, 3, 4, 5]`
      if ¬ (q = 1 ∨ q = 2 ∨ q = 3 ∨ q = 4 ∨ q = 5) then
        (.badRequest "Score must be an integer between 1 and 5", store)
      else
        match req.auth_user with
        | none => (.unauthorized "Authentication required", store)
        | some u =>
          if profiles u ≠ some "student" then
            (.forbidden "Only students can rate", store)
          else
            match parseTargetType (req.target_type.getD "") with
            | none => (.badRequest "Invalid target_type", store)
            | some tt =>
              let tid := req.target_id.getD 0
              if ¬ db tt tid then (.notFound "Target object not found", store)
              else
                let store' := upsertRating u tt tid q store
                let scores := ratingsFor store' tt tid
                let avg : ℚ := if scores = [] then 0 else scores.sum / scores.length
                (.ok (round1 avg) scores.length q, store')

/-! ## Follow ledger (`views/views_query.py` `follow_api`,
lines 1435–1503) -/

/-- Modelled from the spec: the `Follow` model
(`Follow{user_ref, entity_type, entity_id}`, unique per triple) is
declared outside the provided sources; only its callers appear in
`views/views_query.py`. -/
structure FollowRow where
  user : Nat
  entity_type : String
  entity_id : Nat
deriving DecidableEq, Repr

/-- Does a follow row match the `(user, entity_type, entity_id)` triple? -/
def followKey (u : Nat) (et : String) (eid : Nat) (f : FollowRow) : Bool :=
  f.user = u && f.entity_type = et && f.entity_id = eid

/-- `valid_entity_types` from `follow_api`. -/
def valid_entity_types : List String :=
  ["university", "college", "school", "module", "lecturer", "teaching"]

/-- The HTTP method of a `follow_api` request. -/
inductive Method where
  | post
  | delete
deriving DecidableEq, Repr

/-- The `action` value of a successful `follow_api` response. -/
inductive FollowAction where
  | followed
  | already_following
  | unfollowed
  | not_following
deriving DecidableEq, Repr

/-- Outcome of `follow_api`. -/
inductive FollowOutcome where
  | unauthorized (msg : String)     -- HTTP 401
  | badRequest (msg : String)       -- HTTP 400
  | success (action : FollowAction)
deriving DecidableEq, Repr

/-- `follow_api` (`views/views_query.py`, lines 1435–1503): token auth,
field validation, then `get_or_create` on POST (reporting
`already_following` when the row exists) and `get`/`delete` on DELETE
(reporting `not_following` when it does not).  `entity_id` is parsed as
an integer and must be positive. -/
def follow_api (store : List FollowRow) (method : Method) (user : Option Nat)
    (entity_type : Option String) (entity_id : Option Int) :
    FollowOutcome × List FollowRow :=
  match user with
  | none => (.unauthorized "Authentication required.", store)
  | some u =>
    -- `if not entity_type or not entity_id`
    if entity_type.getD "" = "" || entity_id.getD 0 = 0 then
      (.badRequest "entity_type and entity_id are required.", store)
    else
      let et := entity_type.getD ""
      if et ∉ valid_entity_types then (.badRequest "Invalid entity_type.", store)
      else
        let eidZ := entity_id.getD 0
        if eidZ ≤ 0 then (.badRequest "entity_id must be a positive integer.", store)
        else
          let eid := eidZ.toNat
          match method with
          | .post =>
            match store.find? (followKey u et eid) with
            | some _ => (.success .already_following, store)
            | none => (.success .followed, store ++ [⟨u, et, eid⟩])
          | .delete =>
            match store.find? (followKey u et eid) with
            | some _ => (.success .unfollowed, store.eraseP (followKey u et eid))
            | none => (.success .not_following, store)

/-! ## Concrete inputs used by the theorems below -/

/-- An add-comment request body setting both `university_id` and
`college_id` (two target-id fields simultaneously). -/
def twoTargetRequest : AddCommentData :=
  { content := "Great course", parent_id := none, is_anonymous := false,
    university_id := some 1, college_id := some 2, school_id := none,
    module_id := none, lecturer_id := none, teaching_id := none }

/-- An anonymous comment stored with author id 1. -/
def anonByAlice : Comment :=
  .mk 10 "thoughts" 100 true (some ⟨1, "alice", some "student"⟩) []

/-- The same anonymous comment stored with author id 2. -/
def anonByBob : Comment :=
  .mk 10 "thoughts" 100 true (some ⟨2, "bob", some "student"⟩) []

/-- An anonymous comment with a recorded author, for the C10 witness. -/
def anonByCarol : Comment :=
  .mk 11 "more thoughts" 200 true (some ⟨7, "carol", some "student"⟩) []

/-! ## Theorems -/

/-- The two parity branches of the upper-half split both drop all but
the last ⌊n/2⌋ elements. -/
theorem upper_split (arr : List ℚ) :
    (if arr.length % 2 = 0 then arr.drop (arr.length / 2)
     else arr.drop (arr.length / 2 + 1))
      = arr.drop (arr.length - arr.length / 2) := by
  by_cases hn : arr.length % 2 = 0 <;> simp only [hn, if_true, if_false] <;>
    congr 1 <;> omega

/-- C2: on every non-empty sample, `compute_quartiles` takes min/max at
the ends of the sorted sample, the median as middle element or mean of
the two middle elements, and Q1/Q3 as medians of the first ⌊n/2⌋ and
last ⌊n/2⌋ sorted elements (the exact median excluded from both halves
for odd n); on `[1,2,3,4]` it yields min=1, Q1=1.5, median=2.5, Q3=3.5,
max=4. -/
theorem compute_quartiles_correct (values : List ℚ) (h : values ≠ []) :
    compute_quartiles values = compute_quartiles_spec values ∧
    compute_quartiles [1, 2, 3, 4] =
      ⟨some 1, some (3 / 2), some (5 / 2), some (7 / 2), some 4⟩ := by
  constructor
  · unfold compute_quartiles compute_quartiles_spec
    simp only [if_neg h, upper_split]
  · norm_num [compute_quartiles, median, List.insertionSort, List.orderedInsert]
    exact fun habs => absurd habs (by simp)

/-- Witness for C2 at the concrete sample `[1,2,3,4]`. -/
theorem compute_quartiles_correct_witness :
    compute_quartiles [1, 2, 3, 4] =
      ⟨some 1, some (3 / 2), some (5 / 2), some (7 / 2), some 4⟩ :=
  (compute_quartiles_correct [1, 2, 3, 4] (by decide)).2

/-- C1: a request with two target-id fields set is NOT rejected —
`add_comment_api` silently resolves it to the first matching field
(`university_id`) and creates the comment there.  (Evaluated with every
entity existing and an empty comment table.) -/
theorem add_comment_two_targets_first_match :
    countSetTargets twoTargetRequest = 2 ∧
    add_comment_api (fun _ _ => true) (fun _ => false) none twoTargetRequest =
      .created .university 1 "Great course" none false none := by
  constructor
  · decide
  · decide

/-- C3 counterexample: two anonymous comments identical except for the
stored author serialize to DIFFERENT outputs (the `user` field carries
the author's id), refuting output-identity across stored authors. -/
theorem anonymous_serialization_differs_by_author :
    serialize_comment anonByAlice ≠ serialize_comment anonByBob := by
  intro h
  have h2 := congrArg SerializedComment.user h
  simp [anonByAlice, anonByBob, serialize_comment, serialize_list,
    SerializedComment.user] at h2

/-- C3 (amended): for every anonymous comment the serialized `username`
and `role` fields are null regardless of the stored author; the author
id in the `user` field is, however, still emitted, so the full
serialized output is not author-independent. -/
theorem anonymous_comment_hides_username_and_role (c : Comment)
    (h : c.is_anonymous = true) :
    (serialize_comment c).username = none ∧ (serialize_comment c).role = none := by
  cases c with
  | mk i co t anon user rs =>
    simp only [Comment.is_anonymous] at h
    subst h
    cases user <;>
      simp [serialize_comment, SerializedComment.username, SerializedComment.role]

/-- Witness for the amended C3 at a concrete anonymous comment. -/
theorem anonymous_comment_hides_username_and_role_witness :
    (serialize_comment anonByAlice).username = none ∧
    (serialize_comment anonByAlice).role = none :=
  anonymous_comment_hides_username_and_role anonByAlice rfl

/-- C10: whenever a comment has a recorded author, the serialized
`user` field carries the author's numeric id — also when
`is_anonymous` is true; only `username` and `role` are suppressed for
anonymous comments. -/
theorem serialized_user_id_ignores_anonymity (c : Comment) (u : UserRec)
    (h : c.user = some u) :
    (serialize_comment c).user = some u.id ∧
    (c.is_anonymous = true →
      (serialize_comment c).username = none ∧ (serialize_comment c).role = none) := by
  cases c with
  | mk i co t anon user rs =>
    simp only [Comment.user] at h
    subst h
    constructor
    · simp [serialize_comment, SerializedComment.user]
    · intro ha
      simp only [Comment.is_anonymous] at ha
      subst ha
      simp [serialize_comment, SerializedComment.username, SerializedComment.role]

/-- Witness for C10: the anonymous comment by user 7 serializes with
`user = some 7` and null `username`/`role`. -/
theorem serialized_user_id_ignores_anonymity_witness :
    (serialize_comment anonByCarol).user = some 7 ∧
    ((serialize_comment anonByCarol).username = none ∧
      (serialize_comment anonByCarol).role = none) :=
  ⟨(serialized_user_id_ignores_anonymity anonByCarol ⟨7, "carol", some "student"⟩ rfl).1,
   (serialized_user_id_ignores_anonymity anonByCarol ⟨7, "carol", some "student"⟩ rfl).2 rfl⟩

/-- C4: `delete_comment_api` answers 404 when no comment has the given
id; otherwise it answers 403 unless the requester is authenticated and
equals the comment's stored author (anonymous comments included — the
author check ignores `is_anonymous`); only on an author match is the
row deleted. -/
theorem delete_comment_author_check (store : List CommentRow) (cid : Nat)
    (user : Option Nat) :
    (store.find? (fun c => c.id = cid) = none →
      delete_comment_api store cid user = (.http404, store)) ∧
    (∀ c, store.find? (fun c => c.id = cid) = some c →
      ((user = none ∨ user ≠ c.user) →
        delete_comment_api store cid user =
          (.forbidden "You do not have permission to delete this comment.", store)) ∧
      (∀ u, user = some u → c.user = some u →
        delete_comment_api store cid user =
          (.deleted "Comment deleted successfully",
            store.eraseP (fun c => c.id = cid)))) := by
  refine ⟨fun h => by simp [delete_comment_api, h], fun c hc => ⟨?_, ?_⟩⟩
  · rintro (rfl | hne)
    · simp [delete_comment_api, hc]
    · cases user with
      | none => simp [delete_comment_api, hc]
      | some u =>
        have hcu : ¬ (c.user = some u) := fun h => hne (by rw [h])
        simp [delete_comment_api, hc, hcu]
  · rintro u rfl hcu
    simp [delete_comment_api, hc, hcu]

/-- Witness for C4: in a one-comment store, the author (user 5) deletes
comment 1; the row is removed. -/
theorem delete_comment_author_check_witness :
    delete_comment_api [⟨1, some 5, none, 10, false⟩] 1 (some 5) =
      (.deleted "Comment deleted successfully",
        List.eraseP (fun c => c.id = 1) [⟨1, some 5, none, 10, false⟩]) :=
  ((delete_comment_author_check [⟨1, some 5, none, 10, false⟩] 1 (some 5)).2
    ⟨1, some 5, none, 10, false⟩ rfl).2 5 rfl rfl

/-- If a key matches at most one row, upserting rewrites the store so
that exactly the row `⟨u, tt, oid, score⟩` matches the key. -/
theorem upsert_filter (u : Nat) (tt : TargetType) (oid : Nat) (score : ℚ) :
    ∀ store : List RatingRow, (store.filter (ratingKey u tt oid)).length ≤ 1 →
      (upsertRating u tt oid score store).filter (ratingKey u tt oid)
        = [⟨u, tt, oid, score⟩] := by
  intro store
  induction store with
  | nil =>
    intro _
    simp [upsertRating, ratingKey]
  | cons r rs ih =>
    intro hinv
    by_cases hk : ratingKey u tt oid r
    · have hfields : r.user = u ∧ r.content_type = tt ∧ r.object_id = oid := by
        simpa [ratingKey, Bool.and_eq_true, decide_eq_true_eq, and_assoc] using hk
      have hrs : rs.filter (ratingKey u tt oid) = [] := by
        have : (List.filter (ratingKey u tt oid) (r :: rs)).length ≤ 1 := hinv
        rw [List.filter_cons_of_pos hk] at this
        simpa [List.length_eq_zero] using Nat.le_of_succ_le_succ this
      have hk' : ratingKey u tt oid { r with score := score } = true := by
        simp [ratingKey, hfields.1, hfields.2.1, hfields.2.2]
      simp only [upsertRating, hk, if_true, List.filter_cons_of_pos hk', hrs]
      have : ({ r with score := score } : RatingRow) = ⟨u, tt, oid, score⟩ := by
        cases r
        simp_all
      rw [this]
    · have hinv' : (rs.filter (ratingKey u tt oid)).length ≤ 1 := by
        have := hinv
        rwa [List.filter_cons_of_neg (by simpa using hk)] at this
      simp only [upsertRating, hk, if_false, Bool.false_eq_true,
        List.filter_cons_of_neg (by simpa using hk)]
      exact ih hinv'

/-- C5: under the `unique_together ('user', 'content_type',
'object_id')` invariant, rating twice (scores `s1` then `s2`) leaves
exactly one stored row for the `(user, target_type, target_id)` key,
and its score is the latest one, `s2`. -/
theorem upsert_twice_latest_wins (store : List RatingRow) (u : Nat)
    (tt : TargetType) (oid : Nat) (s1 s2 : ℚ)
    (hinv : (store.filter (ratingKey u tt oid)).length ≤ 1) :
    (upsertRating u tt oid s2 (upsertRating u tt oid s1 store)).filter
        (ratingKey u tt oid) = [⟨u, tt, oid, s2⟩] := by
  have h1 := upsert_filter u tt oid s1 store hinv
  exact upsert_filter u tt oid s2 _ (by rw [h1]; simp)

/-- Witness for C5: starting from the empty store, user 3 rates target
`(university, 1)` with 2 then 5; one row with score 5 remains. -/
theorem upsert_twice_latest_wins_witness :
    (upsertRating 3 .university 1 5 (upsertRating 3 .university 1 2 [])).filter
        (ratingKey 3 .university 1) = [⟨3, .university, 1, 5⟩] :=
  upsert_twice_latest_wins [] 3 .university 1 2 5 (by simp)

/-- C6: a rating request whose score is not a number, or is a number
outside the integers 1..5 (out of range or fractional), is answered
with an HTTP 400 validation error, and the rating store is unchanged —
no row is created or modified. -/
theorem rate_api_rejects_invalid_score (profiles : Nat → Option String)
    (db : TargetType → Nat → Bool) (store : List RatingRow) (req : RateRequest)
    (h : req.score = .notNumber ∨
      ∃ q, req.score = .num q ∧ ¬(q = 1 ∨ q = 2 ∨ q = 3 ∨ q = 4 ∨ q = 5)) :
    (rate_api profiles db store req).1.isBadRequest = true ∧
    (rate_api profiles db store req).2 = store := by
  unfold rate_api
  by_cases hp : (req.target_type.getD "" = "" || req.target_id.getD 0 = 0 ||
      req.score = ScoreField.missing) = true
  · simp [hp, RateOutcome.isBadRequest]
  · rcases h with h | ⟨q, hq, hrange⟩
    · simp [hp, h, RateOutcome.isBadRequest]
      all_goals by_cases hA : (req.target_type.getD "" = "" ∨ req.target_id.getD 0 = 0) <;>
        simp [hA]
    · simp [hp, hq, hrange, RateOutcome.isBadRequest]
      all_goals by_cases hA : (req.target_type.getD "" = "" ∨ req.target_id.getD 0 = 0) <;>
        simp [hA]

/-- Witness for C6: score 9/2 (non-integer) from an authenticated
student on an existing target is rejected with a 400 and the store
stays empty. -/
theorem rate_api_rejects_invalid_score_witness :
    (rate_api (fun _ => some "student") (fun _ _ => true) []
        ⟨some "university", some 1, .num (9 / 2), some 3⟩).1.isBadRequest = true ∧
    (rate_api (fun _ => some "student") (fun _ _ => true) []
        ⟨some "university", some 1, .num (9 / 2), some 3⟩).2 = [] :=
  rate_api_rejects_invalid_score (fun _ => some "student") (fun _ _ => true) []
    ⟨some "university", some 1, .num (9 / 2), some 3⟩
    (Or.inr ⟨9 / 2, rfl, by norm_num⟩)

/-- C7: the rating aggregate of a target is the mean of all its scores
rounded to one decimal place, paired with their count; with zero stored
ratings it is the numeric pair `(0, 0)` (not null/NaN). -/
theorem get_aggregate_mean_and_zero (store : List RatingRow) (tt : TargetType)
    (oid : Nat) :
    getAggregate store tt oid =
      (round1 (if ratingsFor store tt oid = [] then 0
        else (ratingsFor store tt oid).sum / (ratingsFor store tt oid).length),
       (ratingsFor store tt oid).length) ∧
    (ratingsFor store tt oid = [] → getAggregate store tt oid = (0, 0)) := by
  refine ⟨rfl, fun h => ?_⟩
  simp [getAggregate, h, round1]

/-- Witness for C7: the empty store has aggregate `(0, 0)`. -/
theorem get_aggregate_mean_and_zero_witness :
    getAggregate [] .university 1 = (0, 0) :=
  (get_aggregate_mean_and_zero [] .university 1).2 rfl

/-- C8: the top-level listing is exactly the comments with
`parent = null` (a permutation of that filter) ordered newest first,
while the serializer orders every reply list oldest first (exactly the
serialized children, ascending by `created_at`). -/
theorem comment_listing_order (rows : List CommentRow) (c : Comment) :
    List.Perm (listTopLevel rows) (rows.filter (fun r => r.parent = none)) ∧
    List.Sorted rowGE (listTopLevel rows) ∧
    List.Perm (serialize_comment c).replies (serialize_list c.replies) ∧
    List.Sorted serLE (serialize_comment c).replies := by
  refine ⟨List.perm_insertionSort _ _, List.sorted_insertionSort _ _, ?_, ?_⟩
  · cases c with
    | mk i co t anon user rs =>
      simp only [serialize_comment, SerializedComment.replies, Comment.replies]
      exact List.perm_insertionSort _ _
  · cases c with
    | mk i co t anon user rs =>
      simp only [serialize_comment, SerializedComment.replies]
      exact List.sorted_insertionSort _ _

/-- C9: for an authenticated user and a valid entity, following twice
reports `already_following` the second time and leaves the follow store
exactly as after the first call (no second row); unfollowing an entity
the user does not follow reports `not_following` without an error and
leaves the store unchanged. -/
theorem follow_idempotent (store : List FollowRow) (u : Nat) (et : String)
    (eid : Int) (hval : et ∈ valid_entity_types) (hpos : 0 < eid) :
    follow_api (follow_api store .post (some u) (some et) (some eid)).2 .post
        (some u) (some et) (some eid)
      = (.success .already_following,
         (follow_api store .post (some u) (some et) (some eid)).2) ∧
    (store.find? (followKey u et eid.toNat) = none →
      follow_api store .delete (some u) (some et) (some eid) =
        (.success .not_following, store)) := by
  have het : ¬ (et = "") := by
    rintro rfl
    simp [valid_entity_types] at hval
  have hz : ¬ (eid = 0) := by omega
  have hle : ¬ (eid ≤ 0) := by omega
  constructor
  · rcases hfind : store.find? (followKey u et eid.toNat) with _ | f
    · have hrow : followKey u et eid.toNat ⟨u, et, eid.toNat⟩ = true := by
        simp [followKey]
      simp [follow_api, het, hz, hval, hle, hfind, List.find?_append, hrow]
    · simp [follow_api, het, hz, hval, hle, hfind]
  · intro hfind
    simp [follow_api, het, hz, hval, hle, hfind]

/-- Witness for C9: user 7 follows `module` 3 twice starting from the
empty store; the second call reports `already_following` and keeps the
single row. -/
theorem follow_idempotent_witness :
    follow_api (follow_api [] .post (some 7) (some "module") (some 3)).2 .post
        (some 7) (some "module") (some 3)
      = (.success .already_following,
         (follow_api [] .post (some 7) (some "module") (some 3)).2) :=
  (follow_idempotent [] 7 "module" 3 (by decide) (by decide)).1

end EduFeedbackHub
